import Mathlib

/-!
Shallow embedding of the EduMentor AI core (src/haidon.py): the SQLite-backed
persistence layer (`DatabaseManager` plus the ad hoc user-account handling in
`login_page`) and the two template content generators of `ContentGenerator`.

Modelling conventions:
  * the database file is a `DB` value: each table is a list of rows kept in
    rowid (insertion) order, together with its AUTOINCREMENT counter;
  * `CREATE TABLE IF NOT EXISTS` is a boolean table-existence flag set to true;
  * `CURRENT_TIMESTAMP` defaults are modelled by a `now : Nat` argument
    supplied by the environment at each insert;
  * `ORDER BY created_at DESC` is a stable insertion sort on the stored rows;
  * the API-key branch of `generate_lesson_outline` recurses into itself with
    the key still set; the recursion is modelled with a fuel parameter, where
    `none` as a result means the computation did not finish within the fuel.
-/

namespace EduMentor

/-- A row of the `lessons` table (columns in declaration order). -/
structure LessonRow where
  id : Nat
  title : String
  subject : String
  content : String
  outline : String
  created_at : Nat
deriving DecidableEq

/-- A row of the `student_progress` table. -/
structure ProgressRow where
  id : Nat
  student_name : String
  lesson_id : Nat
  quiz_score : Int
  completion_status : String
  study_time : Int
  created_at : Nat
deriving DecidableEq

/-- A row of the ad hoc `users` table created in `login_page`. -/
structure UserRow where
  id : Nat
  username : String
  password : String
deriving DecidableEq

/-- Which tables exist in the database file. -/
structure Schema where
  lessons_table : Bool
  student_progress_table : Bool
  generated_images_table : Bool
  users_table : Bool
deriving DecidableEq

/-- The whole SQLite database file. -/
structure DB where
  schema : Schema
  lessons : List LessonRow
  next_lesson_id : Nat
  progress : List ProgressRow
  next_progress_id : Nat
  users : List UserRow
  next_user_id : Nat
deriving DecidableEq

/-- A fresh database file: no tables, no rows, AUTOINCREMENT counters at 1. -/
def empty_db : DB :=
  { schema := ⟨false, false, false, false⟩
    lessons := []
    next_lesson_id := 1
    progress := []
    next_progress_id := 1
    users := []
    next_user_id := 1 }

/-- `DatabaseManager.init_database`: three `CREATE TABLE IF NOT EXISTS`
statements for `lessons`, `student_progress` and `generated_images`.
The `users` table is not touched here. -/
def init_database (db : DB) : DB :=
  { db with
      schema :=
        { db.schema with
            lessons_table := true
            student_progress_table := true
            generated_images_table := true } }

/-- `DatabaseManager.save_lesson`: one INSERT into `lessons`; returns
`cursor.lastrowid` (the id assigned by AUTOINCREMENT) and the new state. -/
def save_lesson (title subject content outline : String) (now : Nat)
    (db : DB) : Nat × DB :=
  let row : LessonRow :=
    ⟨db.next_lesson_id, title, subject, content, outline, now⟩
  (db.next_lesson_id,
    { db with
        lessons := db.lessons ++ [row]
        next_lesson_id := db.next_lesson_id + 1 })

/-- One step of the sort behind `ORDER BY created_at DESC`: place `r` after
every stored row whose `created_at` is at least as large. -/
def insertDescByCreated (r : LessonRow) : List LessonRow → List LessonRow
  | [] => [r]
  | x :: xs =>
      if r.created_at ≤ x.created_at then x :: insertDescByCreated r xs
      else r :: x :: xs

/-- Stable sort of the `lessons` table by `created_at` descending. -/
def sortDescByCreated : List LessonRow → List LessonRow
  | [] => []
  | x :: xs => insertDescByCreated x (sortDescByCreated xs)

/-- `DatabaseManager.get_lessons`:
`SELECT * FROM lessons ORDER BY created_at DESC`, each tuple repacked into a
record with the same fields. -/
def get_lessons (db : DB) : List LessonRow :=
  sortDescByCreated db.lessons

/-- `DatabaseManager.save_progress`: one INSERT into `student_progress`.
The declared FOREIGN KEY on `lesson_id` is never enabled by a PRAGMA, so
SQLite does not check it and the insert always succeeds. -/
def save_progress (student_name : String) (lesson_id : Nat) (quiz_score : Int)
    (completion_status : String) (study_time : Int) (now : Nat)
    (db : DB) : DB :=
  let row : ProgressRow :=
    ⟨db.next_progress_id, student_name, lesson_id, quiz_score,
      completion_status, study_time, now⟩
  { db with
      progress := db.progress ++ [row]
      next_progress_id := db.next_progress_id + 1 }

/-- Outcome of the registration branch of `login_page`. -/
inductive RegisterResult where
  | success
  | duplicateUsername
deriving DecidableEq

/-- The UNIQUE-constraint check on `users.username`: whether a stored row
already carries this username. -/
def username_taken (username : String) (l : List UserRow) : Bool :=
  l.any fun r => r.username == username

/-- Registration branch of `login_page`: `CREATE TABLE IF NOT EXISTS users`
followed by an INSERT; a UNIQUE violation on `username` raises
`sqlite3.IntegrityError`, caught and surfaced as the duplicate error. -/
def register_user (username password : String) (db : DB) :
    RegisterResult × DB :=
  let db1 := { db with schema := { db.schema with users_table := true } }
  if username_taken username db1.users then
    (RegisterResult.duplicateUsername, db1)
  else
    (RegisterResult.success,
      { db1 with
          users := db1.users ++ [⟨db1.next_user_id, username, password⟩]
          next_user_id := db1.next_user_id + 1 })

/-- Login branch of `login_page`:
`SELECT * FROM users WHERE username=? AND password=?` then `fetchone()`,
i.e. the first stored row matching both columns. -/
def authenticate (username password : String) (db : DB) : Option UserRow :=
  db.users.find? (fun r => r.username == username && r.password == password)

/-- The dictionary returned by `generate_lesson_outline`'s fallback branch. -/
structure LessonDocument where
  title : String
  outline : List String
  content : String
  key_points : List String
  estimated_time : String
deriving DecidableEq

/-- The fallback template dictionary, fields exactly as in the source. -/
def fallback_template (topic subject : String) : LessonDocument :=
  { title := s!"Bài học về {topic}"
    outline :=
      [ "1. Giới thiệu và mục tiêu học tập"
      , "2. Kiến thức cơ bản"
      , "3. Ví dụ minh họa"
      , "4. Bài tập thực hành"
      , "5. Tổng kết và đánh giá" ]
    content := s!"Nội dung chi tiết về {topic} trong môn {subject}..."
    key_points :=
      [ s!"Khái niệm cơ bản về {topic}"
      , s!"Ứng dụng thực tế của {topic}"
      , s!"Các bài tập liên quan đến {topic}" ]
    estimated_time := "45 phút" }

/-- `ContentGenerator.generate_lesson_outline`. With no API key it returns the
fallback template. With an API key it builds a prompt string and then calls
itself again with the key still set, so that branch never produces a value:
the fuel parameter makes the recursion total, `none` meaning the call did not
finish within the given fuel. -/
def generate_lesson_outline :
    Nat → Option String → String → String → String → Option LessonDocument
  | 0, _, _, _, _ => none
  | _ + 1, none, topic, subject, _ => some (fallback_template topic subject)
  | fuel + 1, some key, topic, subject, gradeLevel =>
      let _prompt :=
        s!"Tạo dàn ý bài giảng chi tiết cho chủ đề: {topic} Môn học: {subject} Cấp độ: {gradeLevel}"
      generate_lesson_outline fuel (some key) topic subject gradeLevel

/-- The property C1 asserts of a given configuration and input: the call
finishes (for some fuel) and yields the fallback template. -/
def outlineCallReturnsTemplate (apiKey : Option String)
    (topic subject gradeLevel : String) : Prop :=
  ∃ fuel,
    generate_lesson_outline fuel apiKey topic subject gradeLevel
      = some (fallback_template topic subject)

/-- One record of `ContentGenerator.generate_quiz_questions`. -/
structure QuizQuestion where
  question : String
  options : List String
  correct_answer : Nat
  explanation : String
deriving DecidableEq

/-- `ContentGenerator.generate_quiz_questions`: one record per index
`i` in `range(num_questions)`. -/
def generate_quiz_questions (topic : String) (num_questions : Nat) :
    List QuizQuestion :=
  (List.range num_questions).map fun i =>
    { question := s!"Câu hỏi {i+1} về {topic}?"
      options := ["Đáp án A", "Đáp án B", "Đáp án C", "Đáp án D"]
      correct_answer := 0
      explanation := s!"Giải thích cho câu {i+1}" }

/-- The state-changing operations of the persistence core. -/
inductive Op where
  | opInitDatabase
  | opSaveLesson (title subject content outline : String) (now : Nat)
  | opSaveProgress (student_name : String) (lesson_id : Nat)
      (quiz_score : Int) (completion_status : String) (study_time : Int)
      (now : Nat)
  | opRegisterUser (username password : String)

/-- Effect of one operation on the database state. -/
def applyOp : Op → DB → DB
  | Op.opInitDatabase, db => init_database db
  | Op.opSaveLesson t s c o now, db => (save_lesson t s c o now db).2
  | Op.opSaveProgress sn li qs cs st now, db =>
      save_progress sn li qs cs st now db
  | Op.opRegisterUser u p, db => (register_user u p db).2

theorem insertDescByCreated_perm (r : LessonRow) (l : List LessonRow) :
    List.Perm (insertDescByCreated r l) (r :: l) := by
  induction l with
  | nil => exact List.Perm.refl _
  | cons x xs ih =>
      by_cases h : r.created_at ≤ x.created_at
      · simp only [insertDescByCreated, if_pos h]
        exact (List.Perm.cons x ih).trans (List.Perm.swap r x xs)
      · simp only [insertDescByCreated, if_neg h]
        exact List.Perm.refl _

theorem sortDescByCreated_perm (l : List LessonRow) :
    List.Perm (sortDescByCreated l) l := by
  induction l with
  | nil => exact List.Perm.refl _
  | cons x xs ih =>
      exact (insertDescByCreated_perm x (sortDescByCreated xs)).trans
        (List.Perm.cons x ih)

theorem insertDescByCreated_sorted (r : LessonRow) (l : List LessonRow)
    (hl : l.Pairwise (fun a b => b.created_at ≤ a.created_at)) :
    (insertDescByCreated r l).Pairwise
      (fun a b => b.created_at ≤ a.created_at) := by
  induction l with
  | nil => simp [insertDescByCreated]
  | cons x xs ih =>
      rcases List.pairwise_cons.mp hl with ⟨hx, hxs⟩
      by_cases h : r.created_at ≤ x.created_at
      · simp only [insertDescByCreated, if_pos h]
        refine List.pairwise_cons.mpr ⟨?_, ih hxs⟩
        intro y hy
        rcases List.mem_cons.mp
            ((insertDescByCreated_perm r xs).mem_iff.mp hy) with hy | hy
        · exact hy ▸ h
        · exact hx y hy
      · simp only [insertDescByCreated, if_neg h]
        push_neg at h
        refine List.pairwise_cons.mpr ⟨?_, hl⟩
        intro y hy
        rcases List.mem_cons.mp hy with hy | hy
        · exact hy ▸ le_of_lt h
        · exact le_trans (hx y hy) (le_of_lt h)

theorem sortDescByCreated_sorted (l : List LessonRow) :
    (sortDescByCreated l).Pairwise
      (fun a b => b.created_at ≤ a.created_at) := by
  induction l with
  | nil => simp [sortDescByCreated]
  | cons x xs ih => exact insertDescByCreated_sorted x _ ih

theorem mem_get_lessons {r : LessonRow} {db : DB} :
    r ∈ get_lessons db ↔ r ∈ db.lessons :=
  (sortDescByCreated_perm db.lessons).mem_iff

theorem generate_with_key_none (k t s g : String) :
    ∀ fuel, generate_lesson_outline fuel (some k) t s g = none := by
  intro fuel
  induction fuel with
  | zero => rfl
  | succ n ih => simpa [generate_lesson_outline] using ih

/-- C1: the claim asserts that for every input and regardless of whether an
API key is configured, `generate_lesson_outline` terminates and returns the
fixed template. This is false when an API key is configured: the API branch
recurses into itself with the key still set, so no amount of fuel makes the
call produce the template (in Python: unbounded recursion, never the
template). -/
theorem c1_counterexample :
    ¬ outlineCallReturnsTemplate (some "sk-demo") "Pythagoras" "Toán"
        "Trung học cơ sở" := by
  rintro ⟨fuel, h⟩
  rw [generate_with_key_none] at h
  exact Option.noConfusion h

/-- C1 (amended): when no API key is configured, `generate_lesson_outline`
terminates at once (any positive fuel) and deterministically returns the
fixed template: title `Bài học về {topic}`, five outline steps, content text
substituting topic and subject, three key points, estimated time `45 phút`;
with an API key configured, the call recurses forever and never returns a
document. -/
theorem c1_outline_template (fuel : Nat) (topic subject gradeLevel : String)
    (h : 1 ≤ fuel) :
    generate_lesson_outline fuel none topic subject gradeLevel
        = some (fallback_template topic subject) ∧
    (fallback_template topic subject).title = s!"Bài học về {topic}" ∧
    (fallback_template topic subject).outline.length = 5 ∧
    (fallback_template topic subject).content
        = s!"Nội dung chi tiết về {topic} trong môn {subject}..." ∧
    (fallback_template topic subject).key_points.length = 3 ∧
    (fallback_template topic subject).estimated_time = "45 phút" ∧
    ∀ k f, generate_lesson_outline f (some k) topic subject gradeLevel
        = none := by
  obtain ⟨n, rfl⟩ : ∃ n, fuel = n + 1 :=
    ⟨fuel - 1, (Nat.succ_pred_eq_of_pos h).symm⟩
  exact ⟨rfl, rfl, rfl, rfl, rfl, rfl,
    fun k f => generate_with_key_none k _ _ _ f⟩

/-- C1 witness: the amended theorem applied at fuel 1 and concrete input. -/
theorem c1_witness :
    generate_lesson_outline 1 none "Pythagoras" "Toán" "Trung học"
      = some (fallback_template "Pythagoras" "Toán") :=
  (c1_outline_template 1 "Pythagoras" "Toán" "Trung học" (by decide)).1

/-- C2: after `save_lesson`, `get_lessons` contains a record whose title,
subject, content and outline equal the inputs and whose id equals the value
`save_lesson` returned. -/
theorem c2_save_then_list (title subject content outline : String)
    (now : Nat) (db : DB) :
    ∃ r, r ∈ get_lessons (save_lesson title subject content outline now db).2 ∧
      r.id = (save_lesson title subject content outline now db).1 ∧
      r.title = title ∧ r.subject = subject ∧
      r.content = content ∧ r.outline = outline := by
  refine ⟨⟨db.next_lesson_id, title, subject, content, outline, now⟩,
    ?_, rfl, rfl, rfl, rfl, rfl⟩
  rw [mem_get_lessons]
  simp [save_lesson]

/-- C3: `get_lessons` returns exactly the stored lessons (a permutation of
the table) ordered by `created_at` descending (non-increasing). -/
theorem c3_list_sorted_desc (db : DB) :
    List.Perm (get_lessons db) db.lessons ∧
    (get_lessons db).Pairwise (fun a b => b.created_at ≤ a.created_at) :=
  ⟨sortDescByCreated_perm db.lessons, sortDescByCreated_sorted db.lessons⟩

/-- C4: the claim asserts that after `init_database` all four tables exist,
the ad hoc `users` table included. This is false: on a fresh database file
`init_database` creates only the three entity tables, and the `users` table
still does not exist. -/
theorem c4_counterexample :
    ¬ ((init_database empty_db).schema.users_table = true) := by
  decide

/-- C4 (amended): `init_database` is idempotent and after it returns the
three entity tables (`lessons`, `student_progress`, `generated_images`)
exist; it leaves the `users` table exactly as it was, and that table is
instead created by the registration operation. -/
theorem c4_schema (db : DB) (u p : String) :
    init_database (init_database db) = init_database db ∧
    (init_database db).schema.lessons_table = true ∧
    (init_database db).schema.student_progress_table = true ∧
    (init_database db).schema.generated_images_table = true ∧
    (init_database db).schema.users_table = db.schema.users_table ∧
    (register_user u p db).2.schema.users_table = true := by
  refine ⟨rfl, rfl, rfl, rfl, rfl, ?_⟩
  by_cases h : username_taken u db.users = true
  · simp [register_user, h]
  · simp [register_user, h]

theorem username_taken_eq_false {l : List UserRow} {u : String}
    (hfresh : ∀ r ∈ l, r.username ≠ u) : username_taken u l = false := by
  rw [username_taken, List.any_eq_false]
  intro r hr
  simpa using hfresh r hr

theorem username_taken_append (l : List UserRow) (i : Nat) (u p : String) :
    username_taken u (l ++ [⟨i, u, p⟩]) = true := by
  simp [username_taken]

theorem register_user_fresh {db : DB} {u : String} (p : String)
    (hfresh : ∀ r ∈ db.users, r.username ≠ u) :
    register_user u p db
      = (RegisterResult.success,
          { db with
              schema := { db.schema with users_table := true }
              users := db.users ++ [⟨db.next_user_id, u, p⟩]
              next_user_id := db.next_user_id + 1 }) := by
  simp [register_user, username_taken_eq_false hfresh]

theorem register_user_dup {db : DB} {u : String} (p : String)
    (htaken : username_taken u db.users = true) :
    register_user u p db
      = (RegisterResult.duplicateUsername,
          { db with schema := { db.schema with users_table := true } }) := by
  simp [register_user, htaken]

theorem find?_append_of_none {α : Type} (p : α → Bool) (l1 l2 : List α)
    (h : ∀ x ∈ l1, p x = false) : (l1 ++ l2).find? p = l2.find? p := by
  induction l1 with
  | nil => rfl
  | cons x xs ih =>
      rw [List.cons_append,
        List.find?_cons_of_neg _ (by simp [h x (List.mem_cons_self x xs)])]
      exact ih fun y hy => h y (List.mem_cons_of_mem x hy)

/-- C5: registering a fresh username succeeds; registering it again (with any
password) hits the UNIQUE constraint and yields the duplicate-username
failure, leaving the stored accounts unchanged. -/
theorem c5_register_duplicate (db : DB) (u p1 p2 : String)
    (hfresh : ∀ r ∈ db.users, r.username ≠ u) :
    (register_user u p1 db).1 = RegisterResult.success ∧
    (register_user u p2 (register_user u p1 db).2).1
        = RegisterResult.duplicateUsername ∧
    (register_user u p2 (register_user u p1 db).2).2.users
        = (register_user u p1 db).2.users := by
  have h1 := register_user_fresh p1 hfresh
  have h2 : username_taken u (register_user u p1 db).2.users = true := by
    rw [h1]
    exact username_taken_append db.users db.next_user_id u p1
  have h3 := register_user_dup p2 h2
  refine ⟨?_, ?_, ?_⟩
  · rw [h1]
  · rw [h3]
  · rw [h3]

/-- C5 witness: the theorem at `alice`/`p1`/`p2` on a fresh database. -/
theorem c5_witness :
    (register_user "alice" "p1" empty_db).1 = RegisterResult.success ∧
    (register_user "alice" "p2" (register_user "alice" "p1" empty_db).2).1
        = RegisterResult.duplicateUsername ∧
    (register_user "alice" "p2" (register_user "alice" "p1" empty_db).2).2.users
        = (register_user "alice" "p1" empty_db).2.users :=
  c5_register_duplicate empty_db "alice" "p1" "p2"
    (by intro r hr; simp [empty_db] at hr)

/-- C6: after registering a fresh username with some password, logging in
with that username and password returns the stored account, and logging in
with that username and any other password returns no account. -/
theorem c6_authenticate (db : DB) (u p : String)
    (hfresh : ∀ r ∈ db.users, r.username ≠ u) :
    authenticate u p (register_user u p db).2
        = some ⟨db.next_user_id, u, p⟩ ∧
    ∀ w, w ≠ p → authenticate u w (register_user u p db).2 = none := by
  have h1 := register_user_fresh p hfresh
  have husers : (register_user u p db).2.users
      = db.users ++ [⟨db.next_user_id, u, p⟩] := by
    rw [h1]
  constructor
  · simp only [authenticate, husers]
    rw [find?_append_of_none _ _ _ (fun r hr => by
      show (r.username == u && r.password == p) = false
      rw [beq_eq_false_iff_ne.mpr (hfresh r hr), Bool.false_and])]
    simp [List.find?]
  · intro w hw
    simp only [authenticate, husers]
    rw [find?_append_of_none _ _ _ (fun r hr => by
      show (r.username == u && r.password == w) = false
      rw [beq_eq_false_iff_ne.mpr (hfresh r hr), Bool.false_and])]
    have hpw : (p == w) = false := beq_eq_false_iff_ne.mpr (Ne.symm hw)
    simp [List.find?, hpw]

/-- C6 witness: the theorem at `alice`/`p1` and wrong password `wrong` on a
fresh database. -/
theorem c6_witness :
    authenticate "alice" "p1" (register_user "alice" "p1" empty_db).2
        = some ⟨1, "alice", "p1"⟩ ∧
    authenticate "alice" "wrong" (register_user "alice" "p1" empty_db).2
        = none := by
  have h := c6_authenticate empty_db "alice" "p1"
    (by intro r hr; simp [empty_db] at hr)
  exact ⟨h.1, h.2 "wrong" (by decide)⟩

/-- C7: `generate_quiz_questions` returns exactly `n` records for any
`n ≥ 0`, and the record at each index `i < n` is the deterministic
enumeration by index: question text and explanation mention index `i+1`,
with a four-option set and a correct-option index. -/
theorem c7_quiz_count (topic : String) (n : Nat) :
    (generate_quiz_questions topic n).length = n ∧
    ∀ i, i < n →
      (generate_quiz_questions topic n)[i]? =
        some ⟨s!"Câu hỏi {i+1} về {topic}?",
          ["Đáp án A", "Đáp án B", "Đáp án C", "Đáp án D"], 0,
          s!"Giải thích cho câu {i+1}"⟩ := by
  constructor
  · simp [generate_quiz_questions]
  · intro i hi
    simp [generate_quiz_questions, List.getElem?_map, List.getElem?_range, hi]

/-- C7 witness: two questions requested, two returned, the first one being
question number 1. -/
theorem c7_witness :
    (generate_quiz_questions "Toán" 2).length = 2 ∧
    (generate_quiz_questions "Toán" 2)[0]? =
      some ⟨"Câu hỏi 1 về Toán?",
        ["Đáp án A", "Đáp án B", "Đáp án C", "Đáp án D"], 0,
        "Giải thích cho câu 1"⟩ :=
  ⟨(c7_quiz_count "Toán" 2).1, (c7_quiz_count "Toán" 2).2 0 (by decide)⟩

/-- C8: `save_progress` is insert-only and performs no check that
`lesson_id` references an existing lesson: even when no lesson row carries
that id, the call succeeds and its whole effect is appending one progress
row (with the next AUTOINCREMENT id and the supplied fields). -/
theorem c8_save_progress_unchecked (db : DB) (sn : String) (li : Nat)
    (qs : Int) (cs : String) (st : Int) (now : Nat)
    (hno : ∀ l ∈ db.lessons, l.id ≠ li) :
    save_progress sn li qs cs st now db
      = { db with
            progress := db.progress ++
              [⟨db.next_progress_id, sn, li, qs, cs, st, now⟩]
            next_progress_id := db.next_progress_id + 1 } := rfl

/-- C8 witness: inserting progress for lesson id 7 on a fresh database,
where no lesson exists at all. -/
theorem c8_witness :
    save_progress "An" 7 10 "done" 30 5 empty_db
      = { empty_db with
            progress := [⟨1, "An", 7, 10, "done", 30, 5⟩]
            next_progress_id := 2 } :=
  c8_save_progress_unchecked empty_db "An" 7 10 "done" 30 5
    (by intro l hl; simp [empty_db] at hl)

/-- C9: every state-changing operation of the persistence core only appends
rows: after any operation each table holds its previous rows unchanged (ids
and `created_at` included), followed by the newly inserted rows, if any. -/
theorem c9_insert_only (op : Op) (db : DB) :
    (∃ t1, (applyOp op db).lessons = db.lessons ++ t1) ∧
    (∃ t2, (applyOp op db).progress = db.progress ++ t2) ∧
    (∃ t3, (applyOp op db).users = db.users ++ t3) := by
  cases op with
  | opInitDatabase =>
      refine ⟨⟨[], ?_⟩, ⟨[], ?_⟩, ⟨[], ?_⟩⟩ <;> simp [applyOp, init_database]
  | opSaveLesson t s c o now =>
      refine ⟨⟨[⟨db.next_lesson_id, t, s, c, o, now⟩], ?_⟩, ⟨[], ?_⟩,
        ⟨[], ?_⟩⟩ <;> simp [applyOp, save_lesson]
  | opSaveProgress sn li qs cs st now =>
      refine ⟨⟨[], ?_⟩,
        ⟨[⟨db.next_progress_id, sn, li, qs, cs, st, now⟩], ?_⟩,
        ⟨[], ?_⟩⟩ <;> simp [applyOp, save_progress]
  | opRegisterUser u p =>
      by_cases h : username_taken u db.users = true
      · refine ⟨⟨[], ?_⟩, ⟨[], ?_⟩, ⟨[], ?_⟩⟩ <;>
          simp [applyOp, register_user, h]
      · refine ⟨⟨[], ?_⟩, ⟨[], ?_⟩, ⟨[⟨db.next_user_id, u, p⟩], ?_⟩⟩ <;>
          simp [applyOp, register_user, h]

/-- C10: in every question record produced by `generate_quiz_questions`,
the correct-option index is 0 and the option set is the fixed four
placeholder strings, so the first option is always the correct answer. -/
theorem c10_quiz_first_option_correct (topic : String) (n : Nat)
    (q : QuizQuestion) (hq : q ∈ generate_quiz_questions topic n) :
    q.correct_answer = 0 ∧
    q.options = ["Đáp án A", "Đáp án B", "Đáp án C", "Đáp án D"] := by
  simp only [generate_quiz_questions, List.mem_map] at hq
  obtain ⟨i, _, rfl⟩ := hq
  exact ⟨rfl, rfl⟩

/-- C10 witness: the single question generated for topic `Lý` has correct
answer 0 and the fixed options. -/
theorem c10_witness :
    (⟨"Câu hỏi 1 về Lý?",
        ["Đáp án A", "Đáp án B", "Đáp án C", "Đáp án D"], 0,
        "Giải thích cho câu 1"⟩ : QuizQuestion).correct_answer = 0 ∧
    (⟨"Câu hỏi 1 về Lý?",
        ["Đáp án A", "Đáp án B", "Đáp án C", "Đáp án D"], 0,
        "Giải thích cho câu 1"⟩ : QuizQuestion).options
      = ["Đáp án A", "Đáp án B", "Đáp án C", "Đáp án D"] :=
  c10_quiz_first_option_correct "Lý" 1 _ (by decide)

end EduMentor
